import Mathlib

/-!
Verification of the discovery-refresh and request-translation gateway of
`aws-bedrock-a2a-proxy`, shallowly embedded from the Python sources
(`main.py`, `a2a_proxy_server.py`, `a2a_proxy.py`, `agentcore_executor.py`,
`aws_a2a_translation.py`).
-/

namespace AwsA2AProxy

/-- A raw upstream agent record: the Python dict returned by the AWS
discovery API.  Each field models `record.get("<key>")`; `none` means the key
is absent from the dict. -/
structure RawAgent where
  agentRuntimeId : Option String
  agentRuntimeName : Option String
  agentRuntimeArn : Option String
  description : Option String
  status : Option String
  version : Option String
  agentRuntimeVersion : Option String
  lastUpdatedAt : Option String
deriving DecidableEq, Repr

/-- A convenient all-absent record. -/
def RawAgent.empty : RawAgent :=
  ⟨none, none, none, none, none, none, none, none⟩

/-- The agent registry `A2AProxy.agents`: a Python dict from agent id to raw
record, modelled as an association list with Python dict semantics
(assignment overwrites in place or appends). -/
abbrev Registry := List (String × RawAgent)

/-- `m[k]` lookup on the dict. -/
def dictLookup (m : Registry) (k : String) : Option RawAgent :=
  match m with
  | [] => none
  | (k2, v) :: rest => if k2 = k then some v else dictLookup rest k

/-- `m[k] = v` assignment on the dict: overwrite the existing binding in
place, else append. -/
def dictInsert (m : Registry) (k : String) (v : RawAgent) : Registry :=
  match m with
  | [] => [(k, v)]
  | (k2, v2) :: rest => if k2 = k then (k, v) :: rest else (k2, v2) :: dictInsert rest k v

/-- One iteration of the loop body of `A2AProxy.initialize_agents`
(`a2a_proxy_server.py` lines 248-252):
`agent_id = agent.get("agentRuntimeId"); if agent_id: self.agents[agent_id] = agent`.
Python truthiness drops both a missing id and an empty-string id. -/
def registerAgent (m : Registry) (agent : RawAgent) : Registry :=
  match agent.agentRuntimeId with
  | none => m
  | some id => if id = "" then m else dictInsert m id agent

/-- `A2AProxy.initialize_agents(agents)` (`a2a_proxy_server.py` lines
245-254): register each record of `agents` into the existing mapping
`self.agents`; records without a truthy `agentRuntimeId` are skipped. -/
def initialize_agents (m : Registry) (agents : List RawAgent) : Registry :=
  agents.foldl registerAgent m

/-- The outcome of `await client.list_agents()` inside one discovery cycle:
either the fetched list of raw records, or a raised exception message. -/
inductive DiscoveryResult where
  | ok (agents : List RawAgent)
  | error (msg : String)
deriving DecidableEq, Repr

/-- The mutable application state touched by a discovery cycle:
`app.state.proxy.agents` (the registry) and `app.state.agents`. -/
structure AppState where
  registry : Registry
  appAgents : List RawAgent
deriving DecidableEq, Repr

/-- `discover_and_refresh_agents(app, is_startup=False)` (`main.py` lines
102-131) on the path where the client exists.  If `client.list_agents()`
raises, the error is logged and the function returns early: the registry is
untouched.  On success the code runs `proxy.agents.clear()` and then
`await proxy.initialize_agents(agents)`; neither statement contains an
await that suspends (the awaited coroutine has no internal await), so the
clear-plus-register block executes as one atomic step of the cooperative
scheduler, modelled here as a single state transition.  The on-refresh
handler call is wrapped in its own try/except and does not touch state. -/
def discover_and_refresh_agents (s : AppState) (fetch : DiscoveryResult) : AppState :=
  match fetch with
  | .error _ => s
  | .ok agents => { registry := initialize_agents [] agents, appAgents := agents }

/-- `agent_polling_task` (`main.py` lines 163-172) run for a finite list of
cycles: every iteration sleeps, runs one discovery cycle, and catches any
exception so the loop always proceeds to the next cycle. -/
def agent_polling_task (s : AppState) (cycles : List DiscoveryResult) : AppState :=
  cycles.foldl discover_and_refresh_agents s

/-- The events a cooperative interleaving can contain: a discovery refresh
(with the result its fetch produced) or a read of the registry by a request
handler.  Reads can only be scheduled at await points, and the mutation
block of a refresh contains none. -/
inductive Event where
  | refresh (fetch : DiscoveryResult)
  | read
deriving DecidableEq, Repr

/-- Run a trace of interleaved refreshes and reads from state `s`, collecting
the registry snapshot observed by each read. -/
def runTrace (s : AppState) : List Event → List Registry
  | [] => []
  | Event.refresh f :: rest => runTrace (discover_and_refresh_agents s f) rest
  | Event.read :: rest => s.registry :: runTrace s rest

/-- A JSON-like Python value, as passed around in request bodies, payloads
and backend responses. -/
inductive JVal where
  | null
  | str (s : String)
  | num (n : Int)
  | bool (b : Bool)
  | arr (items : List JVal)
  | obj (fields : List (String × JVal))
deriving Repr

/-- Key lookup in the field list of a dict value. -/
def lookupField : List (String × JVal) → String → Option JVal
  | [], _ => none
  | (k2, v) :: rest, k => if k2 = k then some v else lookupField rest k

/-- Models the Python idiom `isinstance(v, dict) and k in v` followed by
`v[k]`: `some` of the value when `v` is a dict holding key `k`, else
`none`. -/
def JVal.getKey : JVal → String → Option JVal
  | .obj fields, k => lookupField fields k
  | _, _ => none

mutual
/-- Python `str(v)` rendering of a JSON-like value (dict/list repr with
single-quoted strings), used by the raw-string fallback branches. -/
def pyStr : JVal → String
  | .null => "None"
  | .str s => "'" ++ s ++ "'"
  | .num n => toString n
  | .bool b => if b then "True" else "False"
  | .arr items => "[" ++ String.intercalate ", " (pyStrList items) ++ "]"
  | .obj fields => "\x7b" ++ String.intercalate ", " (pyStrFields fields) ++ "\x7d"

def pyStrList : List JVal → List String
  | [] => []
  | v :: rest => pyStr v :: pyStrList rest

def pyStrFields : List (String × JVal) → List String
  | [] => []
  | (k, v) :: rest => ("'" ++ k ++ "': " ++ pyStr v) :: pyStrFields rest
end

/-- Python `s.strip()`: remove leading and trailing whitespace. -/
def pyStrip (s : String) : String :=
  String.mk (((s.data.dropWhile Char.isWhitespace).reverse.dropWhile
    Char.isWhitespace).reverse)

/-- The loop body over the content items
(`for content_item in ...: if isinstance(content_item, dict) and "text" in content_item: text_parts.append(content_item["text"])`,
`a2a_proxy.py` lines 44-46 and 213-215): collects every `text` field in
order.  The embedding collects string-typed `text` values, the only ones for
which the subsequent `"".join` does not raise. -/
def collectTexts : List JVal → List String
  | [] => []
  | item :: rest =>
      match item.getKey "text" with
      | some (JVal.str t) => t :: collectTexts rest
      | _ => collectTexts rest

/-- The response-text extraction shared verbatim by
`AgentCoreExecutor.execute` (`a2a_proxy.py` lines 41-49) and
`handle_jsonrpc_request` (`a2a_proxy.py` lines 208-221): when the response
is a dict whose `result` entry holds a `content` entry, the text fragments
are joined with the empty separator and the result is stripped of leading
and trailing whitespace (`"".join(text_parts).strip()`); otherwise the code
falls back to the raw rendering `str(result)`.  A `content` entry that is
not a list is iterated by Python without yielding any dict item, leaving the
joined text empty. -/
def extract_response_text (result : JVal) : String :=
  match result.getKey "result" with
  | some inner =>
      match inner.getKey "content" with
      | some (JVal.arr items) => pyStrip (String.join (collectTexts items))
      | some _ => ""
      | none => pyStr result
  | none => pyStr result

/-- The response-text extraction of
`AgentCoreExecutor._execute_single_response` (`agentcore_executor.py` lines
134-147): only the first content item's text is read, and an empty
extraction is replaced by the fixed message `"No response received from
agent"`. -/
def execute_single_response_text (response : JVal) : String :=
  let t :=
    match response.getKey "result" with
    | some result =>
        match result.getKey "content" with
        | some (JVal.arr (first :: _)) =>
            match first.getKey "text" with
            | some (JVal.str t) => t
            | _ => ""
        | _ => ""
    | none => ""
  if t = "" then "No response received from agent" else t

/-- The normalized descriptor dataclass `AgentCoreAgent`
(`aws_a2a_translation.py` lines 14-23). -/
structure AgentCoreAgent where
  agent_runtime_id : String
  agent_runtime_name : String
  agent_runtime_arn : String
  description : Option String
  status : String
  version : String
  last_updated_at : String
deriving DecidableEq, Repr

/-- `AgentCoreAgent.from_dict` (`aws_a2a_translation.py` lines 25-36).
Square-bracket access raises `KeyError` on an absent key, modelled as
`Except.error` naming the missing key, in the evaluation order of the
constructor arguments; `description` uses `.get` and `version` uses
`data.get("version", data.get("agentRuntimeVersion", "1"))`. -/
def from_dict (data : RawAgent) : Except String AgentCoreAgent :=
  match data.agentRuntimeId with
  | none => .error "KeyError: agentRuntimeId"
  | some id =>
    match data.agentRuntimeName with
    | none => .error "KeyError: agentRuntimeName"
    | some name =>
      match data.agentRuntimeArn with
      | none => .error "KeyError: agentRuntimeArn"
      | some arn =>
        match data.status with
        | none => .error "KeyError: status"
        | some st =>
          match data.lastUpdatedAt with
          | none => .error "KeyError: lastUpdatedAt"
          | some upd =>
            .ok { agent_runtime_id := id
                  agent_runtime_name := name
                  agent_runtime_arn := arn
                  description := data.description
                  status := st
                  version := data.version.getD (data.agentRuntimeVersion.getD "1")
                  last_updated_at := upd }

/-- The capability flags of an A2A agent card. -/
structure AgentCapabilities where
  streaming : Bool
  push_notifications : Bool
  state_transition_history : Bool
deriving DecidableEq, Repr

/-- The A2A agent card document produced by `agent_card.model_dump()`. -/
structure AgentCard where
  protocol_version : String
  name : String
  description : String
  url : String
  preferred_transport : String
  version : String
  default_input_modes : List String
  default_output_modes : List String
  capabilities : AgentCapabilities
  skills : List String
deriving DecidableEq, Repr

/-- `agentcore_agent_to_agentcard` (`aws_a2a_translation.py` lines 41-74):
parse the raw record through `from_dict` (propagating its `KeyError`), then
build the card.  The description uses Python `or`, so an empty-string
upstream description also falls back to the generated
`"AgentCore agent: " + name` text. -/
def agentcore_agent_to_agentcard (agent_id : String) (agent_data : RawAgent)
    (base_url : String := "http://localhost:2972") : Except String AgentCard :=
  match from_dict agent_data with
  | .error e => .error e
  | .ok agent =>
      .ok { protocol_version := "0.2.6"
            name := agent.agent_runtime_name
            description :=
              match agent.description with
              | some d =>
                  if d = "" then "AgentCore agent: " ++ agent.agent_runtime_name else d
              | none => "AgentCore agent: " ++ agent.agent_runtime_name
            url := base_url ++ "/a2a/agent/" ++ agent_id
            preferred_transport := "JSONRPC"
            version := agent.version
            default_input_modes := ["text/plain", "application/json"]
            default_output_modes := ["text/plain", "application/json"]
            capabilities :=
              { streaming := false
                push_notifications := false
                state_transition_history := false }
            skills := [] }

/-- A call to `agentcore_agent_to_agentcard` in a process whose mutable
application state is `w`: the function body (`aws_a2a_translation.py` lines
41-74) reads only its arguments and assigns to nothing, so the embedding
threads the state unchanged past a result computed from the arguments
alone. -/
def agentcard_call (w : AppState) (agent_id : String) (agent_data : RawAgent)
    (base_url : String) : Except String AgentCard × AppState :=
  (agentcore_agent_to_agentcard agent_id agent_data base_url, w)

/-- One entry of the `A2AProxy.get_agent_addresses` listing. -/
structure AgentAddress where
  agent_id : String
  agent_name : String
  a2a_address : String
  status : String
deriving DecidableEq, Repr

/-- `A2AProxy.get_agent_addresses` (`a2a_proxy_server.py` lines 281-294):
list every registered agent, defaulting a missing upstream name to
`"agent-" + agent_id` and a missing status to `"unknown"`. -/
def get_agent_addresses (base_url : String) (m : Registry) : List AgentAddress :=
  m.map fun kv =>
    { agent_id := kv.1
      agent_name := kv.2.agentRuntimeName.getD ("agent-" ++ kv.1)
      a2a_address := base_url ++ "/a2a/agent/" ++ kv.1
      status := kv.2.status.getD "unknown" }

/-- Modelled from the spec: `a2a_request_to_agentcore_payload` is imported by
`a2a_proxy_server.py` from `aws_a2a_translation`, but that module's source in
the tree does not define it.  Spec section 4.5 step 2: translate the inbound
envelope by extracting the single text field from the nested
`params.message.parts[0]` shape; absence of that shape is a client error,
raised as a `ValueError` whose message is returned here in `Except.error`. -/
def a2a_request_to_agentcore_payload (req : JVal) : Except String JVal :=
  match (req.getKey "params").bind
      (fun p => (p.getKey "message").bind (fun m => m.getKey "parts")) with
  | some (JVal.arr (first :: _)) =>
      match first.getKey "text" with
      | some (JVal.str t) => .ok (JVal.obj [("prompt", JVal.str t)])
      | _ => .error "Invalid A2A request: missing message text"
  | _ => .error "Invalid A2A request: missing message parts"

/-- Modelled from the spec: `agentcore_response_to_a2a_message` is imported
by `a2a_proxy_server.py` but missing from the `aws_a2a_translation` source in
the tree.  Spec section 4.5 step 4 and example 2: concatenate the
`result.content` text fragments in order with no separator into the `result`
of a response envelope echoing the request id; an unrecognized shape falls
back to the raw string rendering of the whole backend response. -/
def agentcore_response_to_a2a_message (resp : JVal) (reqId : Option JVal) : JVal :=
  let text :=
    match (resp.getKey "result").bind (fun r => r.getKey "content") with
    | some (JVal.arr items) => String.join (collectTexts items)
    | _ => pyStr resp
  JVal.obj [("id", reqId.getD JVal.null), ("result", JVal.str text)]

/-- A Python exception, as raised inside a route handler's try block. -/
inductive PyErr where
  | valueError (msg : String)
  | httpExc (stat : Nat) (detail : String)
  | exn (msg : String)
deriving DecidableEq, Repr

/-- Python `str(e)` on a caught exception; Starlette's `HTTPException`
renders as `"<status_code>: <detail>"`. -/
def PyErr.toStr : PyErr → String
  | .valueError m => m
  | .httpExc code d => toString code ++ ": " ++ d
  | .exn m => m

/-- A server-sent event emitted by a streaming endpoint, tagged by its role:
`dataLine p` is the ordinary chunk line `"data: " ++ p`, `jsonData body` is a
chunk line holding the JSON dump of `body`, `doneMark` is the terminal
marker line `"data: [DONE]"`, and `errLine msg` is an error-shaped chunk
whose JSON body carries the failure message `msg`. -/
inductive StreamChunk where
  | dataLine (payload : String)
  | jsonData (body : JVal)
  | doneMark
  | errLine (msg : String)
deriving Repr

/-- Whether a chunk is an ordinary (non-terminal, non-error) data chunk. -/
def isPartialChunk : StreamChunk → Bool
  | .dataLine _ => true
  | .jsonData _ => true
  | .doneMark => false
  | .errLine _ => false

/-- The outcome a route handler delivers to the HTTP framework: a normal
return (`response`, transport status 200), a raised `HTTPException`
(`httpFailure`), or a `StreamingResponse` (`eventStream`, transport status
200, with the chunk sequence its generator emits). -/
inductive HandlerOutcome where
  | response (body : JVal)
  | httpFailure (stat : Nat) (detail : String)
  | eventStream (chunks : List StreamChunk)
deriving Repr

/-- The try block of `A2AProxy._handle_a2a_regular` (`a2a_proxy_server.py`
lines 174-185): translate the request (a `ValueError` on a malformed shape),
raise `HTTPException(503)` when `self.client is None`, await the invoker
(which may raise), then translate the backend response. -/
def handle_a2a_regular_body (clientPresent : Bool) (req : JVal)
    (invokeResult : Except String JVal) : Except PyErr JVal :=
  match a2a_request_to_agentcore_payload req with
  | .error m => .error (.valueError m)
  | .ok _ =>
      if clientPresent then
        match invokeResult with
        | .error m => .error (.exn m)
        | .ok resp => .ok (agentcore_response_to_a2a_message resp (req.getKey "id"))
      else .error (.httpExc 503 "AgentCore client not initialized")

/-- `A2AProxy._handle_a2a_regular` (`a2a_proxy_server.py` lines 172-192):
`except ValueError` re-raises as `HTTPException(400)`; every other exception
raised in the try block, including the `HTTPException(503)` raised there
when the client is missing, is caught by `except Exception` and returned as
a normal 200 body whose single `error` field holds the string
`"Agent execution failed: " ++ str(e)`. -/
def handle_a2a_regular (clientPresent : Bool) (req : JVal)
    (invokeResult : Except String JVal) : HandlerOutcome :=
  match handle_a2a_regular_body clientPresent req invokeResult with
  | .ok body => .response body
  | .error (.valueError m) => .httpFailure 400 m
  | .error e =>
      .response (JVal.obj [("error", JVal.str ("Agent execution failed: " ++ PyErr.toStr e))])

/-- Modelled from the spec: `agentcore_streaming_to_a2a_chunks` is imported
by `a2a_proxy_server.py` but missing from the `aws_a2a_translation` source in
the tree.  Spec section 4.5: each received chunk is translated independently
(the per-chunk text-extraction rule) and emitted as a partial-result
envelope, and the stream terminates with an explicit terminal marker. -/
def agentcore_streaming_to_a2a_chunks (resp : JVal) (reqId : Option JVal) : List StreamChunk :=
  let texts :=
    match (resp.getKey "result").bind (fun r => r.getKey "content") with
    | some (JVal.arr items) => collectTexts items
    | _ => [pyStr resp]
  (texts.map fun t =>
    StreamChunk.jsonData (JVal.obj [("id", reqId.getD JVal.null), ("result", JVal.str t)]))
    ++ [StreamChunk.doneMark]

/-- The generator of `A2AProxy._handle_a2a_streaming` (`a2a_proxy_server.py`
lines 200-226): a missing client yields a single A2A-formatted error
envelope and returns; otherwise the invoker is awaited and the translated
chunks are yielded one by one; any exception raised is converted into a
single final A2A-formatted error envelope, after which the generator
ends. -/
def a2a_stream_generator (clientPresent : Bool) (reqId : Option JVal)
    (invokeResult : Except String JVal) : List StreamChunk :=
  if clientPresent then
    match invokeResult with
    | .error e => [.errLine ("Agent execution failed: " ++ e)]
    | .ok resp => agentcore_streaming_to_a2a_chunks resp reqId
  else [.errLine "AgentCore client not initialized"]

/-- `A2AProxy._handle_a2a_streaming` (`a2a_proxy_server.py` lines 194-243):
a `ValueError` from the request translation becomes `HTTPException(400)`;
otherwise a `StreamingResponse` over the generator is returned. -/
def handle_a2a_streaming (clientPresent : Bool) (req : JVal)
    (invokeResult : Except String JVal) : HandlerOutcome :=
  match a2a_request_to_agentcore_payload req with
  | .error m => .httpFailure 400 m
  | .ok _ => .eventStream (a2a_stream_generator clientPresent (req.getKey "id") invokeResult)

/-- The streaming dispatch test of `handle_a2a_agent_messages`
(`a2a_proxy_server.py` line 79):
`isinstance(request_data, dict) and request_data.get("method") == "message/stream"`. -/
def isStreamingRequest (req : JVal) : Bool :=
  match req.getKey "method" with
  | some (JVal.str m) => m = "message/stream"
  | _ => false

/-- The route handler `handle_a2a_agent_messages` (`a2a_proxy_server.py`
lines 65-84) for a successfully parsed JSON body: an unregistered agent id
raises `HTTPException(404)` before anything else; a body whose `method` is
`"message/stream"` is dispatched to the streaming handler, every other body
to the regular handler. -/
def handle_a2a_agent_messages (registry : Registry) (agent_id : String)
    (clientPresent : Bool) (req : JVal) (invokeResult : Except String JVal) :
    HandlerOutcome :=
  match dictLookup registry agent_id with
  | none => .httpFailure 404 ("Agent " ++ agent_id ++ " not found")
  | some _ =>
      if isStreamingRequest req then handle_a2a_streaming clientPresent req invokeResult
      else handle_a2a_regular clientPresent req invokeResult

/-- `invoke_agentcore_agent` (`a2a_proxy_server.py` lines 102-117): 404 for
an unregistered id; `HTTPException(503)` when the client is missing, raised
outside any try block so it reaches the framework; the raw backend result on
success; and `HTTPException(500)` carrying the message when the invoker
raises. -/
def invoke_agentcore_agent (registry : Registry) (agent_id : String)
    (clientPresent : Bool) (invokeResult : Except String JVal) : HandlerOutcome :=
  match dictLookup registry agent_id with
  | none => .httpFailure 404 ("Agent " ++ agent_id ++ " not found")
  | some _ =>
      if clientPresent then
        match invokeResult with
        | .ok r => .response r
        | .error e => .httpFailure 500 e
      else .httpFailure 503 "AgentCore client not initialized"

/-- The backend interaction observed by one run of the generator in
`invoke_agentcore_agent_stream` (`a2a_proxy_server.py` lines 128-160):
either `invoke_agent` itself raises, or it returns a streaming response
whose line iterator delivers `lines` in order and then raises `failure` (if
any) before being exhausted, or it returns a single non-streaming response
body. -/
inductive StreamOutcome where
  | raiseBefore (msg : String)
  | streamLines (lines : List String) (failure : Option String)
  | single (body : JVal)

/-- The prefix handling of the line loop (`a2a_proxy_server.py` lines
145-146): `if line.startswith("data: "): line = line[6:]`. -/
def stripDataPrefix (l : String) : String :=
  if l.data.take 6 = "data: ".data then String.mk (l.data.drop 6) else l

/-- The line loop of the generator (`a2a_proxy_server.py` lines 142-149)
followed by the trailing terminal yield (line 155): falsy lines are skipped,
a `"data: "` prefix is removed, a `"[DONE]"` line breaks out of the loop
(so a pending iterator failure never fires) and the endpoint emits its own
terminal marker, and every other line is re-emitted as a data chunk.  A
failure raised by the iterator after the delivered lines propagates to the
enclosing except block, which yields a single error chunk (lines 157-160). -/
def processLines : List String → Option String → List StreamChunk
  | [], none => [.doneMark]
  | [], some e => [.errLine e]
  | l :: rest, failure =>
      if l = "" then processLines rest failure
      else
        let l2 := stripDataPrefix l
        if l2 = "[DONE]" then [.doneMark]
        else .dataLine l2 :: processLines rest failure

/-- The generator of `invoke_agentcore_agent_stream` (`a2a_proxy_server.py`
lines 128-160): a missing client yields one error chunk and returns; a
failing invocation yields one error chunk; a streaming response is relayed
line by line per `processLines`; a single response is dumped as one data
chunk followed by the terminal marker. -/
def agentcore_stream_generator (clientPresent : Bool) (outcome : StreamOutcome) :
    List StreamChunk :=
  if clientPresent then
    match outcome with
    | .raiseBefore e => [.errLine e]
    | .streamLines lines failure => processLines lines failure
    | .single body => [.jsonData body, .doneMark]
  else [.errLine "AgentCore client not initialized"]

/-- The shape every emitted chunk sequence must have: zero or more ordinary
data chunks followed by exactly one final chunk that is either the terminal
marker or a single error chunk. -/
def chunkShape (cs : List StreamChunk) : Prop :=
  ∃ ps, (∀ c ∈ ps, isPartialChunk c = true) ∧
    (cs = ps ++ [StreamChunk.doneMark] ∨ ∃ e, cs = ps ++ [StreamChunk.errLine e])

/-- The operations that mutate `A2AProxy.agents` anywhere in the sources:
`initialize_agents` (registration), and the `clear()` issued by
`discover_and_refresh_agents` before re-registering and by
`A2AProxy.shutdown`. -/
inductive RegOp where
  | refresh (agents : List RawAgent)
  | clearAll
deriving DecidableEq, Repr

/-- Apply one registry operation. -/
def applyOp (m : Registry) (op : RegOp) : Registry :=
  match op with
  | .refresh agents => initialize_agents m agents
  | .clearAll => []

/-- Apply a sequence of registry operations in order. -/
def applyOps (m : Registry) (ops : List RegOp) : Registry :=
  ops.foldl applyOp m

/-- A complete well-formed raw record, as in spec example scenario 1. -/
def demoAgent : RawAgent :=
  { agentRuntimeId := some "a1"
    agentRuntimeName := some "Bot"
    agentRuntimeArn := some "arn:aws:bedrock-agentcore:us-east-1:123:runtime/a1"
    description := some "Customer support agent"
    status := some "READY"
    version := none
    agentRuntimeVersion := some "2"
    lastUpdatedAt := some "2025-01-01T00:00:00Z" }

/-- A second record with a different id. -/
def demoAgent2 : RawAgent :=
  { demoAgent with agentRuntimeId := some "a2", agentRuntimeName := some "Bot2" }

/-- A record carrying an id but no upstream name field. -/
def noNameAgent : RawAgent :=
  { demoAgent with agentRuntimeName := none }

/-- A registry holding `demoAgent` under its id. -/
def demoRegistry : Registry := [("a1", demoAgent)]

/-- The A2A request of spec example scenario 2. -/
def demoRequest : JVal :=
  JVal.obj [("id", JVal.num 1), ("method", JVal.str "message/send"),
    ("params", JVal.obj [("message", JVal.obj
      [("parts", JVal.arr [JVal.obj [("text", JVal.str "hi")]])])])]

/-- A backend response whose `result.content` carries the given texts. -/
def mkAgentCoreResponse (ts : List String) : JVal :=
  JVal.obj [("result", JVal.obj [("role", JVal.str "assistant"),
    ("content", JVal.arr (ts.map fun t => JVal.obj [("text", JVal.str t)]))])]

/-- Lookup after insertion: the inserted binding shadows precisely its own
key. -/
theorem dictLookup_dictInsert (m : Registry) (k k' : String) (v : RawAgent) :
    dictLookup (dictInsert m k v) k' = if k = k' then some v else dictLookup m k' := by
  induction m with
  | nil => simp [dictInsert, dictLookup]
  | cons kv rest ih =>
      obtain ⟨k2, v2⟩ := kv
      by_cases h1 : k2 = k <;> by_cases h2 : k = k' <;> by_cases h3 : k2 = k' <;>
        simp_all [dictInsert, dictLookup]

/-- Registering one record changes no binding whose key differs from the
record's id. -/
theorem registerAgent_preserves (m : Registry) (a : RawAgent) (k : String)
    (h : a.agentRuntimeId ≠ some k) :
    dictLookup (registerAgent m a) k = dictLookup m k := by
  rcases ha : a.agentRuntimeId with _ | id
  · simp [registerAgent, ha]
  · have hik : id ≠ k := by
      intro he
      exact h (by rw [ha, he])
    by_cases hid : id = ""
    · simp [registerAgent, ha, hid]
    · simp [registerAgent, ha, hid, dictLookup_dictInsert, hik]

/-- `initialize_agents` changes no binding whose key is not an id of the new
batch. -/
theorem initialize_agents_frame (agents : List RawAgent) :
    ∀ (m : Registry) (k : String), (∀ a ∈ agents, a.agentRuntimeId ≠ some k) →
      dictLookup (initialize_agents m agents) k = dictLookup m k := by
  induction agents with
  | nil => intro m k _; rfl
  | cons a rest ih =>
      intro m k h
      have h1 : a.agentRuntimeId ≠ some k := h a (by simp)
      have h2 : ∀ b ∈ rest, b.agentRuntimeId ≠ some k := fun b hb => h b (by simp [hb])
      calc dictLookup (initialize_agents (registerAgent m a) rest) k
          = dictLookup (registerAgent m a) k := ih (registerAgent m a) k h2
        _ = dictLookup m k := registerAgent_preserves m a k h1

/-- Claim C10: `A2AProxy.initialize_agents` by itself never removes registry
entries — after `initialize_agents(new_list)` every pre-existing binding
whose key is not an id occurring in `new_list` is unchanged; the full
replace-all semantics of a discovery refresh arise only because
`discover_and_refresh_agents` clears the mapping first, so the registry it
installs is `initialize_agents` applied to the empty mapping. -/
theorem initialize_agents_preserves_unrelated_entries
    (m : Registry) (agents : List RawAgent) (k : String)
    (h : ∀ a ∈ agents, a.agentRuntimeId ≠ some k) :
    dictLookup (initialize_agents m agents) k = dictLookup m k ∧
    ∀ s : AppState,
      (discover_and_refresh_agents s (DiscoveryResult.ok agents)).registry
        = initialize_agents [] agents :=
  ⟨initialize_agents_frame agents m k h, fun _ => rfl⟩

/-- Witness for C10 at a concrete prior registry and batch. -/
theorem initialize_agents_preserves_unrelated_entries_witness :
    (∀ a ∈ [demoAgent2], a.agentRuntimeId ≠ some "a1") ∧
    (dictLookup (initialize_agents demoRegistry [demoAgent2]) "a1"
        = dictLookup demoRegistry "a1" ∧
      ∀ s : AppState,
        (discover_and_refresh_agents s (DiscoveryResult.ok [demoAgent2])).registry
          = initialize_agents [] [demoAgent2]) :=
  ⟨by decide,
    initialize_agents_preserves_unrelated_entries demoRegistry [demoAgent2] "a1" (by decide)⟩

/-- Claim C2: a failing `list_agents()` in a non-startup discovery cycle
leaves the whole application state unchanged (the exception is caught inside
`discover_and_refresh_agents`), and the polling loop still processes the
remaining cycles exactly as if the failing cycle had not happened. -/
theorem discovery_failure_leaves_registry_and_schedule
    (s : AppState) (e : String) (rest : List DiscoveryResult) :
    discover_and_refresh_agents s (DiscoveryResult.error e) = s ∧
    agent_polling_task s (DiscoveryResult.error e :: rest) = agent_polling_task s rest :=
  ⟨rfl, rfl⟩

/-- Claim C9: `agentcore_agent_to_agentcard` is pure and deterministic — a
call made in any ambient mutable state returns the same document as the same
call in any other state, and leaves the state untouched; two invocations on
identical arguments therefore produce identical documents. -/
theorem agentcard_translation_pure_and_deterministic
    (w w2 : AppState) (agent_id : String) (agent_data : RawAgent) (base_url : String) :
    (agentcard_call w agent_id agent_data base_url).1
      = (agentcard_call w2 agent_id agent_data base_url).1 ∧
    (agentcard_call w agent_id agent_data base_url).2 = w :=
  ⟨rfl, rfl⟩

/-- Claim C5 (evaluation at the failing input): a valid non-streaming A2A
request to the registered agent `a1` while the client is `None` is NOT
surfaced as a 503 — the `HTTPException(503)` raised inside the try block of
`_handle_a2a_regular` is swallowed by its own `except Exception` and comes
back as a transport-success error envelope indistinguishable in kind from a
backend-failure envelope — whereas the direct invocation endpoint, which
raises the same exception outside any try block, does surface the 503. -/
theorem client_missing_regular_request_swallows_503 :
    handle_a2a_agent_messages demoRegistry "a1" false demoRequest
        (Except.error "unreachable")
      = HandlerOutcome.response (JVal.obj [("error",
          JVal.str "Agent execution failed: 503: AgentCore client not initialized")]) ∧
    invoke_agentcore_agent demoRegistry "a1" false (Except.error "unreachable")
      = HandlerOutcome.httpFailure 503 "AgentCore client not initialized" :=
  ⟨rfl, rfl⟩

/-- Counterexample to C3 as stated: when the invoker raises `"timeout"` on a
valid request to the registered agent `a1`, the handler's envelope carries
the failure text directly as the string value of its `error` field — it is
not the nested shape with an `error.message` object that the claim
asserts. -/
theorem regular_error_envelope_is_flat_string :
    handle_a2a_agent_messages demoRegistry "a1" true demoRequest (Except.error "timeout")
      = HandlerOutcome.response
          (JVal.obj [("error", JVal.str "Agent execution failed: timeout")]) ∧
    JVal.obj [("error", JVal.str "Agent execution failed: timeout")]
      ≠ JVal.obj [("error", JVal.obj [("message", JVal.str "Agent execution failed: timeout")])] :=
  ⟨rfl, by simp⟩

/-- Claim C3 (amended): for every non-streaming request to a registered
target whose backend invocation raises, the handler returns the
protocol-level error envelope whose `error` field is the plain string
`"Agent execution failed: " ++ message`, delivered as a normal return — an
HTTP success-class outcome, never a transport-level 5xx. -/
theorem invoke_failure_yields_flat_error_envelope
    (registry : Registry) (agent_id : String) (req : JVal) (p : JVal) (e : String)
    (hreg : dictLookup registry agent_id ≠ none)
    (hm : isStreamingRequest req = false)
    (ht : a2a_request_to_agentcore_payload req = Except.ok p) :
    handle_a2a_agent_messages registry agent_id true req (Except.error e)
      = HandlerOutcome.response
          (JVal.obj [("error", JVal.str ("Agent execution failed: " ++ e))]) := by
  unfold handle_a2a_agent_messages
  rcases hr : dictLookup registry agent_id with _ | v
  · exact absurd hr hreg
  · simp [hm, handle_a2a_regular, handle_a2a_regular_body, ht, PyErr.toStr]

/-- Witness for C3 (amended) at spec example scenario 5. -/
theorem invoke_failure_yields_flat_error_envelope_witness :
    (dictLookup demoRegistry "a1" ≠ none ∧
      isStreamingRequest demoRequest = false ∧
      a2a_request_to_agentcore_payload demoRequest
        = Except.ok (JVal.obj [("prompt", JVal.str "hi")])) ∧
    handle_a2a_agent_messages demoRegistry "a1" true demoRequest (Except.error "timeout")
      = HandlerOutcome.response
          (JVal.obj [("error", JVal.str ("Agent execution failed: " ++ "timeout"))]) :=
  ⟨⟨by decide, rfl, rfl⟩,
    invoke_failure_yields_flat_error_envelope demoRegistry "a1" demoRequest
      (JVal.obj [("prompt", JVal.str "hi")]) "timeout" (by decide) rfl rfl⟩

/-- Collecting the texts of a well-shaped content list recovers the list. -/
theorem collectTexts_map (ts : List String) :
    collectTexts (ts.map fun t => JVal.obj [("text", JVal.str t)]) = ts := by
  induction ts with
  | nil => rfl
  | cons t rest ih => simp [collectTexts, JVal.getKey, lookupField, ih]

/-- Counterexample to C4 as stated: the extraction is not the exact
concatenation — the code strips surrounding whitespace afterwards, so a
single fragment `" a"` extracts to `"a"`; and an empty content list does not
fall back to the raw string rendering — it still matches the
`result.content` shape and extracts to the empty string. -/
theorem extraction_strips_and_empty_content_no_fallback :
    extract_response_text (mkAgentCoreResponse [" a"]) = "a" ∧
    ("a" : String) ≠ " a" ∧
    extract_response_text (mkAgentCoreResponse []) = "" ∧
    ("" : String) ≠ pyStr (mkAgentCoreResponse []) :=
  ⟨rfl, by decide, rfl, by decide⟩

/-- Claim C4 (amended): for every backend response of shape
`result.content = [(text, t1), ..., (text, tn)]` the extraction joins the
fragments in order with no added separator and then strips leading and
trailing whitespace of the joined whole (so for fragments without outer
whitespace, such as `a`, `b`, `c`, the result is exactly their
concatenation `abc`, for any list length, with the empty list giving the
empty string); the raw-string fallback applies exactly to responses without
a `result` key (and to those whose `result` holds no `content` key), never
to an empty content list. -/
theorem extraction_concats_then_strips (ts : List String) :
    extract_response_text (mkAgentCoreResponse ts) = pyStrip (String.join ts) ∧
    ∀ v : JVal, v.getKey "result" = none → extract_response_text v = pyStr v := by
  constructor
  · simp [extract_response_text, mkAgentCoreResponse, JVal.getKey, lookupField,
      collectTexts_map]
  · intro v hv
    simp [extract_response_text, hv]

/-- Witness for C4 (amended): spec property P4's concrete fragments, and the
fallback at a shapeless response. -/
theorem extraction_concats_then_strips_witness :
    (extract_response_text (mkAgentCoreResponse ["a", "b", "c"])
        = pyStrip (String.join ["a", "b", "c"]) ∧
      extract_response_text (mkAgentCoreResponse ["a", "b", "c"]) = "abc") ∧
    ((JVal.str "plain").getKey "result" = none ∧
      extract_response_text (JVal.str "plain") = pyStr (JVal.str "plain")) :=
  ⟨⟨(extraction_concats_then_strips ["a", "b", "c"]).1, rfl⟩,
    ⟨rfl, (extraction_concats_then_strips ["a", "b", "c"]).2 (JVal.str "plain") rfl⟩⟩

/-- Counterexample to C8 as stated: a raw record that has an id but lacks
the upstream name field makes descriptor construction raise `KeyError`
(`data["agentRuntimeName"]` in `from_dict`), so building its capability
document fails instead of defaulting the display name. -/
theorem missing_name_fails_agentcard_construction :
    from_dict noNameAgent = Except.error "KeyError: agentRuntimeName" ∧
    agentcore_agent_to_agentcard "a1" noNameAgent "http://localhost:2972"
      = Except.error "KeyError: agentRuntimeName" :=
  ⟨rfl, rfl⟩

/-- Claim C8 (amended): display-name defaulting is applied by the address
listing — `get_agent_addresses` renders a registered record lacking the
upstream name with the generated default `"agent-" ++ id` and never fails —
but the descriptor dataclass `from_dict`, and therefore capability-document
construction through it, requires `agentRuntimeName` and errs with a
`KeyError` when the field is absent. -/
theorem missing_name_defaults_in_addresses_not_agentcard
    (a : RawAgent) (id : String) (base : String)
    (hname : a.agentRuntimeName = none) :
    (∀ entry ∈ get_agent_addresses base [(id, a)], entry.agent_name = "agent-" ++ id) ∧
    (∀ rid, a.agentRuntimeId = some rid →
      from_dict a = Except.error "KeyError: agentRuntimeName" ∧
      agentcore_agent_to_agentcard id a base
        = Except.error "KeyError: agentRuntimeName") := by
  constructor
  · intro entry he
    simp [get_agent_addresses] at he
    simp [he, hname]
  · intro rid hrid
    refine ⟨?_, ?_⟩
    · simp [from_dict, hrid, hname]
    · simp [agentcore_agent_to_agentcard, from_dict, hrid, hname]

/-- Witness for C8 (amended) at the concrete nameless record. -/
theorem missing_name_defaults_in_addresses_not_agentcard_witness :
    (noNameAgent.agentRuntimeName = none ∧ noNameAgent.agentRuntimeId = some "a1") ∧
    ((∀ entry ∈ get_agent_addresses "http://localhost:2972" [("a1", noNameAgent)],
        entry.agent_name = "agent-" ++ "a1") ∧
      (from_dict noNameAgent = Except.error "KeyError: agentRuntimeName" ∧
        agentcore_agent_to_agentcard "a1" noNameAgent "http://localhost:2972"
          = Except.error "KeyError: agentRuntimeName")) :=
  ⟨⟨rfl, rfl⟩,
    ⟨(missing_name_defaults_in_addresses_not_agentcard noNameAgent "a1"
        "http://localhost:2972" rfl).1,
      (missing_name_defaults_in_addresses_not_agentcard noNameAgent "a1"
        "http://localhost:2972" rfl).2 "a1" rfl⟩⟩

/-- Each binding reachable through `registerAgent` is either an old binding
or exactly the newly registered record keyed by its own truthy id. -/
theorem registerAgent_entry (m : Registry) (a : RawAgent) (k : String) (v : RawAgent)
    (h : dictLookup (registerAgent m a) k = some v) :
    dictLookup m k = some v ∨ (a.agentRuntimeId = some k ∧ k ≠ "" ∧ v = a) := by
  rcases ha : a.agentRuntimeId with _ | id
  · left
    simpa [registerAgent, ha] using h
  · by_cases hid : id = ""
    · left
      simpa [registerAgent, ha, hid] using h
    · rw [registerAgent, ha] at h
      simp only [if_neg hid] at h
      rw [dictLookup_dictInsert] at h
      by_cases hk : id = k
      · right
        rw [if_pos hk] at h
        exact ⟨by simp [ha, hk], hk ▸ hid, (Option.some_inj.mp h).symm⟩
      · left
        rwa [if_neg hk] at h

/-- The key invariant: every binding's key is non-empty and equals the
record's own id. -/
def registryKeyInv (m : Registry) : Prop :=
  ∀ k v, dictLookup m k = some v → k ≠ "" ∧ v.agentRuntimeId = some k

theorem registerAgent_inv (m : Registry) (a : RawAgent) (h : registryKeyInv m) :
    registryKeyInv (registerAgent m a) := by
  intro k v hkv
  rcases registerAgent_entry m a k v hkv with h1 | ⟨h2, h3, h4⟩
  · exact h k v h1
  · exact ⟨h3, h4 ▸ h2⟩

theorem initialize_agents_inv (agents : List RawAgent) :
    ∀ m : Registry, registryKeyInv m → registryKeyInv (initialize_agents m agents) := by
  induction agents with
  | nil => intro m h; exact h
  | cons a rest ih => intro m h; exact ih (registerAgent m a) (registerAgent_inv m a h)

theorem applyOps_inv (ops : List RegOp) :
    ∀ m : Registry, registryKeyInv m → registryKeyInv (applyOps m ops) := by
  induction ops with
  | nil => intro m h; exact h
  | cons op rest ih =>
      intro m h
      refine ih (applyOp m op) ?_
      match op with
      | RegOp.refresh agents => exact initialize_agents_inv agents m h
      | RegOp.clearAll => intro k v hkv; simp [dictLookup] at hkv

/-- Claim C6: a record lacking the identifier field is silently dropped by
registration — it yields no binding and no error — and consequently, after
any sequence of registry operations starting from the empty registry, every
binding has a non-empty key equal to its record's id. -/
theorem missing_id_dropped_and_key_invariant :
    (∀ (m : Registry) (a : RawAgent), a.agentRuntimeId = none → registerAgent m a = m) ∧
    (∀ (ops : List RegOp) (k : String) (v : RawAgent),
      dictLookup (applyOps [] ops) k = some v → k ≠ "" ∧ v.agentRuntimeId = some k) :=
  ⟨fun m a ha => by simp [registerAgent, ha],
    fun ops k v h =>
      applyOps_inv ops [] (fun k2 v2 h2 => by simp [dictLookup] at h2) k v h⟩

/-- Witness for C6: a record without an id registers nothing, and a concrete
operation sequence satisfies the key invariant. -/
theorem missing_id_dropped_and_key_invariant_witness :
    (RawAgent.empty.agentRuntimeId = none ∧ registerAgent demoRegistry RawAgent.empty
        = demoRegistry) ∧
    (dictLookup (applyOps [] [RegOp.refresh [demoAgent, RawAgent.empty]]) "a1"
        = some demoAgent ∧
      ("a1" : String) ≠ "" ∧ demoAgent.agentRuntimeId = some "a1") :=
  ⟨⟨rfl, missing_id_dropped_and_key_invariant.1 demoRegistry RawAgent.empty rfl⟩,
    ⟨rfl, missing_id_dropped_and_key_invariant.2
      [RegOp.refresh [demoAgent, RawAgent.empty]] "a1" demoAgent rfl⟩⟩

/-- Every read along a trace observes either the registry the trace started
with or the complete registry installed by one successful refresh of the
trace. -/
theorem runTrace_reads (events : List Event) :
    ∀ (s : AppState) (r : Registry), r ∈ runTrace s events →
      r = s.registry ∨ ∃ agents,
        Event.refresh (DiscoveryResult.ok agents) ∈ events ∧
          r = initialize_agents [] agents := by
  induction events with
  | nil =>
      intro s r h
      simp [runTrace] at h
  | cons ev rest ih =>
      intro s r h
      match ev with
      | Event.read =>
          rw [runTrace] at h
          rcases List.mem_cons.mp h with h1 | h2
          · exact Or.inl h1
          · rcases ih s r h2 with h3 | ⟨agents, hm, he⟩
            · exact Or.inl h3
            · exact Or.inr ⟨agents, List.mem_cons_of_mem _ hm, he⟩
      | Event.refresh f =>
          rw [runTrace] at h
          rcases ih (discover_and_refresh_agents s f) r h with h3 | ⟨agents, hm, he⟩
          · match f with
            | DiscoveryResult.error e => exact Or.inl h3
            | DiscoveryResult.ok agents => exact Or.inr ⟨agents, by simp, h3⟩
          · exact Or.inr ⟨agents, List.mem_cons_of_mem _ hm, he⟩

/-- Claim C1: registry replacement is atomic with respect to readers — along
every interleaving of discovery refreshes and reads started from the empty
registry, every observed registry is the empty initial one or exactly the
mapping installed whole by a single successful discovery generation, never a
mixture of two generations and never a cleared-but-not-yet-refilled
intermediate (the clear-and-register block of `discover_and_refresh_agents`
contains no suspension point, so the cooperative scheduler runs it as one
step). -/
theorem registry_reads_observe_single_generation
    (events : List Event) (r : Registry)
    (h : r ∈ runTrace { registry := [], appAgents := [] } events) :
    r = [] ∨ ∃ agents,
      Event.refresh (DiscoveryResult.ok agents) ∈ events ∧
        r = initialize_agents [] agents :=
  runTrace_reads events { registry := [], appAgents := [] } r h

/-- Witness for C1 at a concrete two-event trace. -/
theorem registry_reads_observe_single_generation_witness :
    (initialize_agents [] [demoAgent]
        ∈ runTrace { registry := [], appAgents := [] }
            [Event.refresh (DiscoveryResult.ok [demoAgent]), Event.read]) ∧
    (initialize_agents [] [demoAgent] = [] ∨ ∃ agents,
      Event.refresh (DiscoveryResult.ok agents)
          ∈ [Event.refresh (DiscoveryResult.ok [demoAgent]), Event.read] ∧
        initialize_agents [] [demoAgent] = initialize_agents [] agents) :=
  ⟨by decide,
    registry_reads_observe_single_generation
      [Event.refresh (DiscoveryResult.ok [demoAgent]), Event.read]
      (initialize_agents [] [demoAgent]) (by decide)⟩

/-- Prepending an ordinary data chunk preserves the chunk shape. -/
theorem chunkShape_cons_data (d : String) (cs : List StreamChunk)
    (h : chunkShape cs) : chunkShape (StreamChunk.dataLine d :: cs) := by
  obtain ⟨ps, hp, hcs⟩ := h
  refine ⟨StreamChunk.dataLine d :: ps, ?_, ?_⟩
  · intro c hc
    rcases List.mem_cons.mp hc with h1 | h2
    · rw [h1]; rfl
    · exact hp c h2
  · rcases hcs with h1 | ⟨e, h2⟩
    · exact Or.inl (by rw [h1]; rfl)
    · exact Or.inr ⟨e, by rw [h2]; rfl⟩

/-- The relayed line loop of the direct streaming endpoint always emits data
chunks followed by one terminal marker or one error chunk. -/
theorem processLines_shape (lines : List String) :
    ∀ failure : Option String, chunkShape (processLines lines failure) := by
  induction lines with
  | nil =>
      intro failure
      match failure with
      | none => exact ⟨[], by simp, Or.inl rfl⟩
      | some e => exact ⟨[], by simp, Or.inr ⟨e, rfl⟩⟩
  | cons l rest ih =>
      intro failure
      by_cases h0 : l = ""
      · simpa [processLines, h0] using ih failure
      · by_cases h1 : stripDataPrefix l = "[DONE]"
        · rw [processLines]
          simp only [if_neg h0, h1, if_pos rfl]
          exact ⟨[], by simp, Or.inl rfl⟩
        · rw [processLines]
          simp only [if_neg h0, if_neg h1]
          exact chunkShape_cons_data _ _ (ih failure)

/-- A run of ordinary chunks closed by the terminal marker has the chunk
shape. -/
theorem chunkShape_partials_done (ps : List StreamChunk)
    (hp : ∀ c ∈ ps, isPartialChunk c = true) :
    chunkShape (ps ++ [StreamChunk.doneMark]) :=
  ⟨ps, hp, Or.inl rfl⟩

/-- Claim C7: for every streaming request, to the direct streaming endpoint
or through the A2A streaming handler, the emitted sequence is zero or more
partial data chunks followed by exactly one final chunk — the terminal
marker on success, or a single error-shaped chunk when a failure occurs at
any point — and nothing is ever emitted after that final chunk. -/
theorem streaming_chunks_partials_then_single_terminal
    (clientPresent : Bool) (outcome : StreamOutcome)
    (reqId : Option JVal) (invokeResult : Except String JVal) :
    chunkShape (agentcore_stream_generator clientPresent outcome) ∧
    chunkShape (a2a_stream_generator clientPresent reqId invokeResult) := by
  constructor
  · match clientPresent with
    | false => exact ⟨[], by simp, Or.inr ⟨_, rfl⟩⟩
    | true =>
        match outcome with
        | StreamOutcome.raiseBefore e => exact ⟨[], by simp, Or.inr ⟨e, rfl⟩⟩
        | StreamOutcome.streamLines lines failure => exact processLines_shape lines failure
        | StreamOutcome.single body =>
            exact ⟨[StreamChunk.jsonData body], by simp [isPartialChunk], Or.inl rfl⟩
  · match clientPresent with
    | false => exact ⟨[], by simp, Or.inr ⟨_, rfl⟩⟩
    | true =>
        match invokeResult with
        | Except.error e => exact ⟨[], by simp, Or.inr ⟨_, rfl⟩⟩
        | Except.ok resp =>
            refine chunkShape_partials_done _ ?_
            intro c hc
            rcases List.mem_map.mp hc with ⟨t, _, ht⟩
            rw [← ht]
            rfl

end AwsA2AProxy
